import Mathlib

/-!
Verification development for the Creative_Canvas repository (Tesco Creative
Studio). The repository ships a React frontend (under `frontend/src`) and a
Python FastAPI backend; the backend compliance engine
(`backend/services/compliance_rules.py`) is not part of the available sources,
so the Compliance Validation Engine below is modelled from the specification
(sections 3, 4 and 8), while the frontend behaviour (export handlers, tag and
value-tile creation, canvas serialization) is translated from the JavaScript
sources.
-/

/-- Modelled from the spec: severity of a RuleResult, §3 — `severity ∈ {error, warning}`. -/
inductive Severity
  | error
  | warning
deriving DecidableEq

/-- Modelled from the spec: value-tile kinds, §3 — `tile_type ∈ {new, white, clubcard}`. -/
inductive TileType
  | new
  | white
  | clubcard
deriving DecidableEq

/-- Modelled from the spec: the per-variant payloads of an Element, §3.
`text` adds text, font_size, font_family, fill; `image` adds src; `value_tile`
adds tile_type, price, regular_price; `tag` adds text; `drinkaware` adds color.
`shape` carries no rule-relevant payload. -/
inductive ElementVariant
  | text (text : String) (font_size : Int) (font_family : String) (fill : String)
  | image (src : String)
  | shape
  | value_tile (tile_type : TileType) (price : Option String) (regular_price : Option String)
  | tag (text : String)
  | drinkaware (color : String)
deriving DecidableEq

/-- Modelled from the spec: an Element with the §3 common attributes
(`type` is encoded by the variant constructor). -/
structure Element where
  variant : ElementVariant
  x : Int
  y : Int
  width : Int
  height : Int
  opacity : ℚ
  angle : Int
  z_index : Int
deriving DecidableEq

/-- Modelled from the spec: the CreativeDocument input payload, §3 and §6. -/
structure CreativeDocument where
  canvas_width : Int
  canvas_height : Int
  format : String
  background_color : String
  is_alcohol_campaign : Bool
  has_people_in_images : Bool
  people_confirmed : Bool
  headline : String
  subhead : String
  body_text : String
  tag_text : String
  elements : List Element
deriving DecidableEq

/-- Modelled from the spec: a RuleResult, §3. -/
structure RuleResult where
  rule_id : Nat
  rule_name : String
  category : String
  severity : Severity
  passed : Bool
  message : String
deriving DecidableEq

/-- Modelled from the spec: a ComplianceReport, §3. -/
structure ComplianceReport where
  total_rules : Nat
  passed_rules : Nat
  errors : List RuleResult
  warnings : List RuleResult
  compliance_score : Nat
  is_compliant : Bool
deriving DecidableEq

/-- Modelled from the spec: a rectangle `(x, y, w, h)`, §4.1. -/
structure Rect where
  x : Int
  y : Int
  w : Int
  h : Int
deriving DecidableEq

/-- Modelled from the spec, §4.1: a malformed (negative width/height) rect is
treated as a failing rect (never overlaps, never in-zone) rather than raising. -/
def malformedRect (r : Rect) : Bool :=
  decide (r.w < 0) || decide (r.h < 0)

/-- Modelled from the spec, §4.1: true iff the rect lies entirely inside
`[left_margin, canvas_w - right_margin] × [top_margin, canvas_h - bottom_margin]`. -/
def is_within_safe_zone (r : Rect) (top bottom left right cw ch : Int) : Bool :=
  !malformedRect r &&
    decide (left ≤ r.x) && decide (r.x + r.w ≤ cw - right) &&
    decide (top ≤ r.y) && decide (r.y + r.h ≤ ch - bottom)

/-- Modelled from the spec, §4.1: standard axis-aligned overlap test. -/
def rects_overlap (a b : Rect) : Bool :=
  !malformedRect a && !malformedRect b &&
    decide (a.x < b.x + b.w) && decide (b.x < a.x + a.w) &&
    decide (a.y < b.y + b.h) && decide (b.y < a.y + a.h)

/-- The rectangle of an element's common geometry attributes. -/
def rectOf (e : Element) : Rect :=
  ⟨e.x, e.y, e.width, e.height⟩

/-- Boolean test: the char list `pat` is an initial segment of `l`. -/
def leadB : List Char → List Char → Bool
  | [], _ => true
  | _ :: _, [] => false
  | c :: cs, d :: ds => c == d && leadB cs ds

/-- Boolean test: the char list `pat` occurs contiguously inside `l`. -/
def occursB (pat : List Char) : List Char → Bool
  | [] => leadB pat []
  | c :: cs => leadB pat (c :: cs) || occursB pat cs

/-- Lower-cased character list of a string. -/
def lowerChars (s : String) : List Char :=
  s.data.map Char.toLower

/-- Case-insensitive substring containment used by the Copy rules (§4.3:
case-insensitive keyword/pattern matching). -/
def containsCI (hay pat : String) : Bool :=
  occursB (lowerChars pat) (lowerChars hay)

/-- Case-sensitive substring containment (JavaScript `String.includes`). -/
def containsCS (hay pat : String) : Bool :=
  occursB pat.data hay.data

/-- Modelled from the spec, §4.3: the concatenation of
`headline + subhead + body_text + tag_text` scanned by the text rules. -/
def freeText (d : CreativeDocument) : String :=
  d.headline ++ d.subhead ++ d.body_text ++ d.tag_text

/-- Modelled from the spec, §4.3 rule 5: a currency-amount pattern
`£\d+(\.\d{2})?` occurs iff a `£` immediately followed by a digit occurs. -/
def hasCurrency : List Char → Bool
  | [] => false
  | c :: cs =>
      (c == '£' && (match cs with
        | d :: _ => d.isDigit
        | [] => false)) || hasCurrency cs

/-- Modelled from the spec, §4.2 and §4.6: the WCAG contrast-ratio computation
is kept abstract because its gamma-correction step raises rationals to the
power 2.4, which has no exact executable presentation; every theorem below is
universally quantified over it. `contrastOf bg fg` returns the ratio. -/
structure ContrastOracle where
  contrastOf : String → String → ℚ

/-- Modelled from the spec, §9 design note: a rule is a tagged variant
`{id, category, applicability_predicate, evaluate_fn}` in an ordered registry.
`run` returns `Except`: `.ok passed` is a normal outcome, `.error` an internal
fault (§4.7 step 2 / §7(b)). -/
structure Rule where
  id : Nat
  name : String
  category : String
  severity : Severity
  applicable : CreativeDocument → Bool
  run : CreativeDocument → Except String Bool

/-- Element classification helpers. -/
def isValueTile (e : Element) : Bool :=
  match e.variant with
  | .value_tile _ _ _ => true
  | _ => false

def isTag (e : Element) : Bool :=
  match e.variant with
  | .tag _ => true
  | _ => false

def isImage (e : Element) : Bool :=
  match e.variant with
  | .image _ => true
  | _ => false

/-- The `text` of every `tag` element, in element order. -/
def tagTexts (d : CreativeDocument) : List String :=
  d.elements.filterMap (fun e =>
    match e.variant with
    | .tag t => some t
    | _ => none)

/-- Approved tag strings, from `approvedTags` in ProjectManager.jsx (TescoTag). -/
def approvedTags : List String :=
  ["Only at Tesco", "Available at Tesco", "Selected stores. While stocks last."]

/-- The fixed leading text of the Clubcard tag template (ProjectManager.jsx
builds `Available in selected stores. Clubcard/app required. Ends DD/MM`). -/
def tmplLead : List Char :=
  "Available in selected stores. Clubcard/app required. Ends ".data

/-- Numeric value of a digit character. -/
def digitVal (c : Char) : Nat :=
  c.toNat - 48

/-- Modelled from the spec, §4.3 rule 8: the trailing `DD/MM` of a Clubcard tag
is syntactically valid iff both parts are two digits with day 01–31 and month
01–12 (no calendar validation beyond range). -/
def ddmmOk : List Char → Bool
  | [d1, d2, s, m1, m2] =>
      s == '/' && d1.isDigit && d2.isDigit && m1.isDigit && m2.isDigit &&
        decide (1 ≤ digitVal d1 * 10 + digitVal d2) &&
        decide (digitVal d1 * 10 + digitVal d2 ≤ 31) &&
        decide (1 ≤ digitVal m1 * 10 + digitVal m2) &&
        decide (digitVal m1 * 10 + digitVal m2 ≤ 12)
  | _ => false

/-- Modelled from the spec, §4.3 rule 8: the tag text matches the Clubcard
template with a syntactically valid `DD/MM`. -/
def clubcardTemplateOk (tx : String) : Bool :=
  leadB tmplLead tx.data && ddmmOk (tx.data.drop tmplLead.length)

/-- Modelled from the spec, §4.3 rule 8: a tag text is acceptable iff it
exactly equals one of the approved strings or matches the Clubcard template. -/
def tagTextOk (tx : String) : Bool :=
  approvedTags.contains tx || clubcardTemplateOk tx

/-- Modelled from the spec, §4.4 rule 9: field-presence conditions of one value
tile — `price` present when `tile_type ∈ {white, clubcard}`, `regular_price`
present when `clubcard`. -/
def tileFieldsOk (t : TileType) (price regular_price : Option String) : Bool :=
  (!(t == TileType.white || t == TileType.clubcard) || price.isSome) &&
    (!(t == TileType.clubcard) || regular_price.isSome)

/-- Modelled from the spec, §4.4 rule 10: CTA detection heuristic
(`shop now|buy now|learn more|get it now`, case-insensitive). -/
def isCtaText (s : String) : Bool :=
  containsCI s "shop now" || containsCI s "buy now" ||
    containsCI s "learn more" || containsCI s "get it now"

/-- Modelled from the spec, §4.3 rule 1: No T&Cs/Claims. -/
def rule1 : Rule where
  id := 1
  name := "No T&Cs/Claims"
  category := "Copy"
  severity := .error
  applicable := fun _ => true
  run := fun d =>
    .ok (!(containsCI (freeText d) "terms and conditions" ||
           containsCI (freeText d) "t&cs apply" ||
           containsCI (freeText d) "*see"))

/-- Modelled from the spec, §4.3 rule 2: No Competitions. -/
def rule2 : Rule where
  id := 2
  name := "No Competitions"
  category := "Copy"
  severity := .error
  applicable := fun _ => true
  run := fun d =>
    .ok (!(containsCI (freeText d) "win" ||
           containsCI (freeText d) "competition" ||
           containsCI (freeText d) "prize draw" ||
           containsCI (freeText d) "enter now to win"))

/-- Modelled from the spec, §4.3 rule 3: No Sustainability Claims. -/
def rule3 : Rule where
  id := 3
  name := "No Sustainability Claims"
  category := "Copy"
  severity := .error
  applicable := fun _ => true
  run := fun d =>
    .ok (!(containsCI (freeText d) "eco-friendly" ||
           containsCI (freeText d) "sustainable" ||
           containsCI (freeText d) "carbon neutral" ||
           containsCI (freeText d) "green"))

/-- Modelled from the spec, §4.3 rule 4: No Charity Partnerships. -/
def rule4 : Rule where
  id := 4
  name := "No Charity Partnerships"
  category := "Copy"
  severity := .error
  applicable := fun _ => true
  run := fun d =>
    .ok (!(containsCI (freeText d) "% donated" ||
           containsCI (freeText d) "charity partner" ||
           containsCI (freeText d) "in aid of"))

/-- Modelled from the spec, §4.3 rule 5: No Price Call-Outs in Copy. -/
def rule5 : Rule where
  id := 5
  name := "No Price Call-Outs in Copy"
  category := "Copy"
  severity := .error
  applicable := fun _ => true
  run := fun d => .ok (!hasCurrency (freeText d).data)

/-- Modelled from the spec, §4.3 rule 6: No Money-Back Guarantees. -/
def rule6 : Rule where
  id := 6
  name := "No Money-Back Guarantees"
  category := "Copy"
  severity := .error
  applicable := fun _ => true
  run := fun d =>
    .ok (!(containsCI (freeText d) "money back guarantee" ||
           containsCI (freeText d) "100% guaranteed"))

/-- Modelled from the spec, §4.3 rule 7: No Claims via Asterisks/Surveys —
footnote markers paired with survey/claim language, or `according to a survey`. -/
def rule7 : Rule where
  id := 7
  name := "No Claims via Asterisks/Surveys"
  category := "Copy"
  severity := .error
  applicable := fun _ => true
  run := fun d =>
    .ok (!(containsCI (freeText d) "according to a survey" ||
           (containsCS (freeText d) "*" && containsCI (freeText d) "survey")))

/-- Modelled from the spec, §4.3 rule 8: Approved Tesco Tags Only. -/
def rule8 : Rule where
  id := 8
  name := "Approved Tesco Tags Only"
  category := "Copy"
  severity := .error
  applicable := fun _ => true
  run := fun d => .ok ((tagTexts d).all tagTextOk)

/-- Modelled from the spec, §4.4 rule 9: Value Tile Validation — field presence
per tile type and no overlap with any other `value_tile` or `tag` element. -/
def rule9 : Rule where
  id := 9
  name := "Value Tile Validation"
  category := "Design"
  severity := .error
  applicable := fun _ => true
  run := fun d =>
    .ok (d.elements.enum.all (fun p =>
      match p.2.variant with
      | .value_tile t price regular_price =>
          tileFieldsOk t price regular_price &&
            d.elements.enum.all (fun q =>
              !(q.1 != p.1 && (isValueTile q.2 || isTag q.2)) ||
                !rects_overlap (rectOf p.2) (rectOf q.2))
      | _ => true))

/-- Modelled from the spec, §4.4 rule 10: CTA Validation — a `tag` or text
element that functions as a CTA must be non-empty and at most 40 chars. -/
def rule10 : Rule where
  id := 10
  name := "CTA Validation"
  category := "Design"
  severity := .error
  applicable := fun _ => true
  run := fun d =>
    .ok (d.elements.all (fun e =>
      match e.variant with
      | .text t _ _ _ => !isCtaText t || (t != "" && decide (t.length ≤ 40))
      | .tag t => !isCtaText t || (t != "" && decide (t.length ≤ 40))
      | _ => true))

/-- Modelled from the spec, §4.4 rule 11: Tesco Tag Position —
`y + height ≥ canvas_height - 150` for every `tag` element. -/
def rule11 : Rule where
  id := 11
  name := "Tesco Tag Position"
  category := "Design"
  severity := .error
  applicable := fun _ => true
  run := fun d =>
    .ok (d.elements.all (fun e =>
      !isTag e || decide (e.y + e.height ≥ d.canvas_height - 150)))

/-- Modelled from the spec, §4.5 rule 12: 9:16 Safe Zones — top 200px, bottom
250px, left/right 0; applies only when `format == "9:16"`. -/
def rule12 : Rule where
  id := 12
  name := "9:16 Safe Zones"
  category := "Format"
  severity := .error
  applicable := fun d => d.format == "9:16"
  run := fun d =>
    .ok (d.elements.all (fun e =>
      is_within_safe_zone (rectOf e) 200 250 0 0 d.canvas_width d.canvas_height))

/-- Modelled from the spec, §4.4 rule 13: Minimum Font Sizes — `font_size ≥ 14`,
or `≥ 18` for legal/disclaimer text (length > 60 and position in the bottom 20%
of the canvas). -/
def rule13 : Rule where
  id := 13
  name := "Minimum Font Sizes"
  category := "Accessibility"
  severity := .error
  applicable := fun _ => true
  run := fun d =>
    .ok (d.elements.all (fun e =>
      match e.variant with
      | .text t fs _ _ =>
          decide (fs ≥ (if t.length > 60 ∧ 5 * e.y ≥ 4 * d.canvas_height then 18 else 14))
      | _ => true))

/-- Modelled from the spec, §4.4 rule 14: WCAG AA Contrast — each text
element's `fill` against the canvas `background_color`, threshold 4.5 for
normal text and 3.0 for large text (§4.2). -/
def rule14 (o : ContrastOracle) : Rule where
  id := 14
  name := "WCAG AA Contrast"
  category := "Accessibility"
  severity := .error
  applicable := fun _ => true
  run := fun d =>
    .ok (d.elements.all (fun e =>
      match e.variant with
      | .text _ fs _ fill =>
          decide (o.contrastOf d.background_color fill ≥ (if fs ≥ 24 then 3 else 9 / 2))
      | _ => true))

/-- Modelled from the spec, §4.6 rule 15: Photography of People Warning —
applies when `has_people_in_images`; a `warning` unless `people_confirmed`. -/
def rule15 : Rule where
  id := 15
  name := "Photography of People Warning"
  category := "Media"
  severity := .warning
  applicable := fun d => d.has_people_in_images
  run := fun d => .ok d.people_confirmed

/-- Modelled from the spec, §4.6 rule 16: Drinkaware Lock-Up — applies when
`is_alcohol_campaign`; requires a `drinkaware` element (first match wins, §3)
with color black/white, minimum height (12px for the reduced "says" variant,
else 20px) and contrast against its background at least 4.5. -/
def rule16 (o : ContrastOracle) : Rule where
  id := 16
  name := "Drinkaware Lock-Up"
  category := "Alcohol"
  severity := .error
  applicable := fun d => d.is_alcohol_campaign
  run := fun d =>
    .ok (match d.elements.filterMap (fun e =>
          match e.variant with
          | .drinkaware c => some (e, c)
          | _ => none) with
      | [] => false
      | (e, c) :: _ =>
          (c == "black" || c == "white") &&
            decide (e.height ≥ (if d.format == "says" then 12 else 20)) &&
            decide (o.contrastOf d.background_color c ≥ 9 / 2))

/-- Modelled from the spec, §4.6 rule 17: Packshot Positioning — the primary
image (first `image` element) must not overlap any `value_tile` or `tag`. -/
def rule17 : Rule where
  id := 17
  name := "Packshot Positioning"
  category := "Packshot"
  severity := .error
  applicable := fun _ => true
  run := fun d =>
    .ok (match d.elements.find? isImage with
      | none => true
      | some img =>
          d.elements.all (fun e =>
            !(isValueTile e || isTag e) || !rects_overlap (rectOf img) (rectOf e)))

/-- Modelled from the spec, §4.6 rule 18: Packshot Safe Zone — when
`format == "9:16"`, the primary packshot must satisfy the §4.5 safe zone. -/
def rule18 : Rule where
  id := 18
  name := "Packshot Safe Zone"
  category := "Packshot"
  severity := .error
  applicable := fun d => d.format == "9:16"
  run := fun d =>
    .ok (match d.elements.find? isImage with
      | none => true
      | some img =>
          is_within_safe_zone (rectOf img) 200 250 0 0 d.canvas_width d.canvas_height)

/-- Modelled from the spec, §4.7 step 1 and §9: the ordered rule registry. -/
def registry (o : ContrastOracle) : List Rule :=
  [rule1, rule2, rule3, rule4, rule5, rule6, rule7, rule8, rule9, rule10,
   rule11, rule12, rule13, rule14 o, rule15, rule16 o, rule17, rule18]

/-- Modelled from the spec, §4.7 step 2 / §7(b): evaluate one rule, converting
an internal fault into a failing `error` result with a generic message. -/
def evalRule (r : Rule) (d : CreativeDocument) : RuleResult :=
  match r.run d with
  | .ok passed =>
      { rule_id := r.id, rule_name := r.name, category := r.category,
        severity := r.severity, passed := passed,
        message := if passed then "OK" else "Rule failed" }
  | .error _ =>
      { rule_id := r.id, rule_name := r.name, category := r.category,
        severity := .error, passed := false,
        message := "Internal error evaluating rule" }

/-- The generic failing `error` result recorded for a faulted rule (§7(b)). -/
def genericFaultResult (r : Rule) : RuleResult :=
  { rule_id := r.id, rule_name := r.name, category := r.category,
    severity := .error, passed := false,
    message := "Internal error evaluating rule" }

/-- Modelled from the spec, §4.7 step 1: the applicable rules for a document. -/
def applicableRules (o : ContrastOracle) (d : CreativeDocument) : List Rule :=
  (registry o).filter (fun r => r.applicable d)

/-- Modelled from the spec, §4.7 step 2: evaluate each rule of a list. -/
def runRules (rules : List Rule) (d : CreativeDocument) : List RuleResult :=
  rules.map (fun r => evalRule r d)

/-- Rounding of `num / den` to the nearest integer (§4.7 step 4 `round`). -/
def natRound (num den : Nat) : Nat :=
  (2 * num + den) / (2 * den)

/-- Modelled from the spec, §4.7 steps 3–5: aggregate the evaluated results
into a ComplianceReport. -/
def aggregate (results : List RuleResult) : ComplianceReport :=
  let passed := (results.filter (fun r => r.passed)).length
  let errs := results.filter (fun r => !r.passed && r.severity == Severity.error)
  let warns := results.filter (fun r => !r.passed && r.severity == Severity.warning)
  { total_rules := results.length
    passed_rules := passed
    errors := errs
    warnings := warns
    compliance_score :=
      if results.length = 0 then 0 else natRound (100 * passed) results.length
    is_compliant := errs.isEmpty }

/-- The evaluated results of one validation call. -/
def evaluatedResults (o : ContrastOracle) (d : CreativeDocument) : List RuleResult :=
  runRules (applicableRules o d) d

/-- Modelled from the spec, §4.7: the Validation Orchestrator. -/
def validateCreative (o : ContrastOracle) (d : CreativeDocument) : ComplianceReport :=
  aggregate (evaluatedResults o d)

/-- The rule ids evaluated in a validation call, in registry order. -/
def reportRuleIds (o : ContrastOracle) (d : CreativeDocument) : List Nat :=
  (evaluatedResults o d).map (fun r => r.rule_id)

/-- Modelled from the spec, §5: validating a sequence of documents —
each call is an independent application of the pure orchestrator. -/
def validateSequence (o : ContrastOracle) : List CreativeDocument → List ComplianceReport
  | [] => []
  | d :: ds => validateCreative o d :: validateSequence o ds

/-- A contrast oracle for concrete evaluations (ratio 21 is the white/black
maximum); theorems quantify over the oracle, witnesses instantiate it. -/
def trivialContrast : ContrastOracle :=
  ⟨fun _ _ => 21⟩

/-- Scenario A of §8: `format="1:1"`, no elements, all text empty, no flags. -/
def scenarioA : CreativeDocument :=
  { canvas_width := 1080, canvas_height := 1080, format := "1:1",
    background_color := "#FFFFFF", is_alcohol_campaign := false,
    has_people_in_images := false, people_confirmed := false,
    headline := "", subhead := "", body_text := "", tag_text := "",
    elements := [] }

/-- Scenario B of §8: `body_text="Save £5 today!"`. -/
def scenarioB : CreativeDocument :=
  { scenarioA with body_text := "Save £5 today!" }

/-- End-date validation of the tag-creation UI, from ProjectManager.jsx
(TescoTag `addTagToCanvas`): the regex `^\d{2}\/\d{2}$` — two digits, a slash,
two digits — with no range or calendar check. -/
def endDateShapeOk (s : String) : Bool :=
  match s.data with
  | [a, b, c, e, f] => c == '/' && a.isDigit && b.isDigit && e.isDigit && f.isDigit
  | _ => false

/-- The final tag text produced by `addTagToCanvas` (ProjectManager.jsx):
`none` when a validation toast rejects the input, otherwise the text placed on
the canvas — the Clubcard template with the end date appended when the selected
tag text contains `Clubcard` and an end date was given. -/
def addTagFinalText (tagText endDate : String) : Option String :=
  if tagText == "" then none
  else if containsCS tagText "Clubcard" && endDate == "" then none
  else if endDate != "" && !endDateShapeOk endDate then none
  else if containsCS tagText "Clubcard" && endDate != "" then
    some ("Available in selected stores. Clubcard/app required. Ends " ++ endDate)
  else some tagText

/-- A rule whose evaluation raises an internal fault, used to exercise the
orchestrator's fault isolation (§7(b)). -/
def faultyDemoRule : Rule where
  id := 99
  name := "Faulty demo rule"
  category := "Copy"
  severity := .error
  applicable := fun _ => true
  run := fun _ => .error "fault"

/-- The store element record appended by `addValueTileToCanvas`
(ValueTile component, `addElement` call). -/
structure ValueTileElement where
  type : String
  tile_type : TileType
  x : ℚ
  y : ℚ
  width : ℚ
  height : ℚ
  price : Option String
  regular_price : Option String
deriving DecidableEq

/-- From the ValueTile component: the element added to the store for the
selected tile type — `price` is `null` for the `new` type and the price input
otherwise; `regular_price` is the RRP input for `clubcard` and `null`
otherwise; position is fixed (210px top offset under the 9:16 safe zone). -/
def addValueTileToCanvas (format : String) (selectedType : TileType)
    (price regularPrice : String) : ValueTileElement :=
  let posY : ℚ := if format == "9:16" then 210 else 20
  { type := "value_tile"
    tile_type := selectedType
    x := 20
    y := posY
    width := 140
    height := 140
    price := if selectedType ≠ TileType.new then some price else none
    regular_price := if selectedType = TileType.clubcard then some regularPrice else none }

/-- Backend API requests issued by the export UI (services/api.js:
`exportCreative` posts `/api/export/single`, `exportMultipleFormats` posts
`/api/export/multi-format`). -/
inductive ApiCall
  | exportSingle (formatType fileFormat filename : String)
  | exportMulti (filename : String)
deriving DecidableEq

/-- JavaScript `formatType.replace(/:/g, '-')` from RightPanel's handleExport. -/
def replaceColonsDash (s : String) : String :=
  String.mk (s.data.map (fun c => if c == ':' then '-' else c))

/-- The export API calls issued by `handleExport` (RightPanel.jsx lines 56–119)
as a function of the store's compliance result: the body runs getCreativeData
and exportCreative unconditionally — no branch reads `complianceResult`. -/
def handleExportCalls (complianceResult : Option ComplianceReport)
    (formatType : String) : List ApiCall :=
  [ApiCall.exportSingle formatType "JPEG" ("tesco-creative-" ++ replaceColonsDash formatType)]

/-- The advisory box of the export section (RightPanel.jsx lines 389–406):
rendered iff a compliance result exists and `is_compliant` is false; it does
not disable the export buttons. -/
def exportAdvisoryShown (complianceResult : Option ComplianceReport) : Bool :=
  match complianceResult with
  | some r => !r.is_compliant
  | none => false

/-- The export API calls issued by `handleExportAll` (Header component in
StretchGoals.jsx lines 194–245): guarded only by the `isExporting` re-entrancy
flag, never by the compliance result. -/
def handleExportAllCalls (complianceResult : Option ComplianceReport)
    (isExporting : Bool) (filename : String) : List ApiCall :=
  if isExporting then [] else [ApiCall.exportMulti filename]

/-- JSON-ish values carried by the serialized element payload. -/
inductive JVal
  | str (s : String)
  | num (q : ℚ)
  | nul
deriving DecidableEq

/-- A child object inside a Fabric.js group (only its `text` matters to the
serializer's `_objects.some(...)` scans). -/
structure FabricChild where
  text : Option String
deriving DecidableEq

/-- The properties of a live Fabric.js canvas object read by `getCreativeData`
(creativeStore.js lines 100–178); optional fields model properties that may be
absent (`undefined`/`null`) on a given object. -/
structure FabricObject where
  type : String
  left : ℚ
  top : ℚ
  width : ℚ
  height : ℚ
  angle : ℚ
  opacity : ℚ
  scaleX : Option ℚ
  scaleY : Option ℚ
  zIndex : Option ℚ
  tile_type : Option String
  price : Option String
  regular_price : Option String
  tag_text : Option String
  text : Option String
  fontSize : Option ℚ
  fontFamily : Option String
  fill : Option String
  stroke : Option String
  strokeWidth : Option ℚ
  src : Option String
  drinkaware : Bool
  color : Option String
  children : List FabricChild
deriving DecidableEq

/-- JavaScript `v || dflt` on an optional number (0 is falsy). -/
def jsNumOr (v : Option ℚ) (dflt : ℚ) : ℚ :=
  match v with
  | some q => if q == 0 then dflt else q
  | none => dflt

/-- JavaScript `v || dflt` on an optional string (the empty string is falsy). -/
def jsStrOr (v : Option String) (dflt : String) : String :=
  match v with
  | some s => if s == "" then dflt else s
  | none => dflt

/-- JavaScript truthiness of an optional string. -/
def jsStrTruthy (v : Option String) : Bool :=
  match v with
  | some s => s != ""
  | none => false

def optStrJ : Option String → JVal
  | some s => .str s
  | none => .nul

def optNumJ : Option ℚ → JVal
  | some q => .num q
  | none => .nul

/-- JavaScript object property assignment `data.k = v` on a key-ordered record:
update in place when the key exists, append otherwise. -/
def setKV (l : List (String × JVal)) (k : String) (v : JVal) : List (String × JVal) :=
  if l.any (fun p => p.1 == k) then
    l.map (fun p => if p.1 == k then (k, v) else p)
  else
    l ++ [(k, v)]

/-- JavaScript `obj._objects.some(o => o.text && o.text.includes(pat))`. -/
def hasChildContaining (obj : FabricObject) (pat : String) : Bool :=
  obj.children.any (fun c =>
    match c.text with
    | some t => t != "" && containsCS t pat
    | none => false)

/-- The element record built for one canvas object by `getCreativeData`
(creativeStore.js lines 110–156), as the ordered key–value record the JSON
payload serializes: the base fields `type, left, top, width, height, angle,
opacity, zIndex` followed by the per-type branch. -/
def serializeObject (obj : FabricObject) : List (String × JVal) :=
  let data : List (String × JVal) :=
    [("type", .str obj.type), ("left", .num obj.left), ("top", .num obj.top),
     ("width", .num (obj.width * jsNumOr obj.scaleX 1)),
     ("height", .num (obj.height * jsNumOr obj.scaleY 1)),
     ("angle", .num obj.angle), ("opacity", .num obj.opacity),
     ("zIndex", .num (jsNumOr obj.zIndex 0))]
  if obj.type == "group" then
    if jsStrTruthy obj.tile_type then
      let data := setKV data "type" (.str "value_tile")
      let data := setKV data "tile_type" (optStrJ obj.tile_type)
      let data := setKV data "price" (optStrJ obj.price)
      setKV data "regular_price" (optStrJ obj.regular_price)
    else if jsStrTruthy obj.tag_text || hasChildContaining obj "Tesco" then
      let data := setKV data "type" (.str "tag")
      setKV data "text" (.str (jsStrOr obj.tag_text (jsStrOr obj.text "Available at Tesco")))
    else if obj.drinkaware || hasChildContaining obj "drinkaware" then
      let data := setKV data "type" (.str "drinkaware")
      setKV data "color" (.str (jsStrOr obj.color "black"))
    else data
  else if obj.type == "image" then
    setKV data "src" (optStrJ obj.src)
  else if obj.type == "text" || obj.type == "i-text" || obj.type == "textbox" then
    let data := setKV data "type" (.str "text")
    let data := setKV data "text" (optStrJ obj.text)
    let data := setKV data "fontSize" (optNumJ obj.fontSize)
    let data := setKV data "fontFamily" (optStrJ obj.fontFamily)
    setKV data "fill" (optStrJ obj.fill)
  else if obj.type == "rect" || obj.type == "circle" then
    let data := setKV data "type" (.str "shape")
    let data := setKV data "shape" (.str (if obj.type == "rect" then "rectangle" else "circle"))
    let data := setKV data "fill" (optStrJ obj.fill)
    let data := setKV data "stroke" (optStrJ obj.stroke)
    setKV data "strokeWidth" (optNumJ obj.strokeWidth)
  else data

/-- A live editable-text canvas object at left 100, top 200 (the kind produced
by the editor's Add Text action). -/
def demoITextObject : FabricObject :=
  { type := "i-text", left := 100, top := 200, width := 120, height := 30,
    angle := 0, opacity := 1, scaleX := some 1, scaleY := some 1, zIndex := none,
    tile_type := none, price := none, regular_price := none, tag_text := none,
    text := some "Hello", fontSize := some 24, fontFamily := some "Arial",
    fill := some "#000000", stroke := none, strokeWidth := none, src := none,
    drinkaware := false, color := none, children := [] }

/-! Helper lemmas. -/

lemma leadB_iff (a l : List Char) : leadB a l = true ↔ ∃ t, l = a ++ t := by
  induction a generalizing l with
  | nil => simp [leadB]
  | cons c cs ih =>
      cases l with
      | nil => simp [leadB]
      | cons d ds =>
          simp only [leadB, Bool.and_eq_true, beq_iff_eq, ih, List.cons_append,
            List.cons_eq_cons]
          constructor
          · rintro ⟨rfl, t, rfl⟩
            exact ⟨t, rfl, rfl⟩
          · rintro ⟨t, rfl, rfl⟩
            exact ⟨rfl, t, rfl⟩

lemma length_partition (rs : List RuleResult) :
    rs.length = (rs.filter (fun r => r.passed)).length
      + (rs.filter (fun r => !r.passed && r.severity == Severity.error)).length
      + (rs.filter (fun r => !r.passed && r.severity == Severity.warning)).length := by
  induction rs with
  | nil => rfl
  | cons r rs ih =>
      rcases r with ⟨i, n, c, sev, p, m⟩
      cases p <;> cases sev <;> simp [List.filter_cons, ih] <;> omega

lemma evalRule_id (r : Rule) (d : CreativeDocument) : (evalRule r d).rule_id = r.id := by
  cases hr : r.run d <;> simp [evalRule, hr]

lemma reportRuleIds_eq (o : ContrastOracle) (d : CreativeDocument) :
    reportRuleIds o d = (applicableRules o d).map Rule.id := by
  unfold reportRuleIds evaluatedResults runRules
  rw [List.map_map]
  exact List.map_congr_left (fun r _ => evalRule_id r d)

lemma applicableRules_ids (o : ContrastOracle) (d : CreativeDocument) :
    (applicableRules o d).map Rule.id =
      [1, 2, 3, 4, 5, 6, 7, 8, 9, 10, 11]
        ++ (if d.format == "9:16" then [12] else [])
        ++ [13, 14]
        ++ (if d.has_people_in_images then [15] else [])
        ++ (if d.is_alcohol_campaign then [16] else [])
        ++ [17]
        ++ (if d.format == "9:16" then [18] else []) := by
  unfold applicableRules registry
  cases hf : d.format == "9:16" <;> cases hp : d.has_people_in_images <;>
    cases ha : d.is_alcohol_campaign <;>
      simp [List.filter_cons, rule1, rule2, rule3, rule4, rule5, rule6, rule7, rule8,
        rule9, rule10, rule11, rule12, rule13, rule14, rule15, rule16, rule17, rule18,
        hf, hp, ha]

lemma contains_approved (tx : String) : approvedTags.contains tx = true ↔ tx ∈ approvedTags := by
  exact List.elem_iff

lemma ddmmOk_iff (l : List Char) :
    ddmmOk l = true ↔ ∃ d1 d2 m1 m2 : Char, l = [d1, d2, '/', m1, m2] ∧
      d1.isDigit = true ∧ d2.isDigit = true ∧ m1.isDigit = true ∧ m2.isDigit = true ∧
      1 ≤ digitVal d1 * 10 + digitVal d2 ∧ digitVal d1 * 10 + digitVal d2 ≤ 31 ∧
      1 ≤ digitVal m1 * 10 + digitVal m2 ∧ digitVal m1 * 10 + digitVal m2 ≤ 12 := by
  rcases l with _ | ⟨a, _ | ⟨b, _ | ⟨c, _ | ⟨e, _ | ⟨f, _ | ⟨g, rest⟩⟩⟩⟩⟩⟩
  · simp [ddmmOk]
  · simp [ddmmOk]
  · simp [ddmmOk]
  · simp [ddmmOk]
  · simp [ddmmOk]
  · simp only [ddmmOk, Bool.and_eq_true, beq_iff_eq, decide_eq_true_eq, List.cons_eq_cons]
    constructor
    · rintro ⟨⟨⟨⟨⟨⟨⟨⟨rfl, h1⟩, h2⟩, h3⟩, h4⟩, h5⟩, h6⟩, h7⟩, h8⟩
      exact ⟨a, b, e, f, by simp, h1, h2, h3, h4, h5, h6, h7, h8⟩
    · rintro ⟨d1, d2, m1, m2, heq, h1, h2, h3, h4, h5, h6, h7, h8⟩
      obtain ⟨rfl, rfl, rfl, rfl, rfl⟩ : a = d1 ∧ b = d2 ∧ c = '/' ∧ e = m1 ∧ f = m2 := by
        simpa using heq
      exact ⟨⟨⟨⟨⟨⟨⟨⟨rfl, h1⟩, h2⟩, h3⟩, h4⟩, h5⟩, h6⟩, h7⟩, h8⟩
  · simp [ddmmOk]

lemma clubcardTemplateOk_iff (tx : String) :
    clubcardTemplateOk tx = true ↔ ∃ d1 d2 m1 m2 : Char,
      tx.data = tmplLead ++ [d1, d2, '/', m1, m2] ∧
      d1.isDigit = true ∧ d2.isDigit = true ∧ m1.isDigit = true ∧ m2.isDigit = true ∧
      1 ≤ digitVal d1 * 10 + digitVal d2 ∧ digitVal d1 * 10 + digitVal d2 ≤ 31 ∧
      1 ≤ digitVal m1 * 10 + digitVal m2 ∧ digitVal m1 * 10 + digitVal m2 ≤ 12 := by
  unfold clubcardTemplateOk
  constructor
  · rintro h
    rw [Bool.and_eq_true] at h
    obtain ⟨hlead, hddmm⟩ := h
    obtain ⟨t, ht⟩ := (leadB_iff tmplLead tx.data).mp hlead
    rw [ht, List.drop_left] at hddmm
    obtain ⟨d1, d2, m1, m2, rfl, hs⟩ := (ddmmOk_iff t).mp hddmm
    exact ⟨d1, d2, m1, m2, ht, hs⟩
  · rintro ⟨d1, d2, m1, m2, ht, hs⟩
    rw [Bool.and_eq_true]
    constructor
    · exact (leadB_iff tmplLead tx.data).mpr ⟨_, ht⟩
    · rw [ht, List.drop_left]
      exact (ddmmOk_iff _).mpr ⟨d1, d2, m1, m2, rfl, hs⟩

/-! Claim theorems. -/

/-- Claim C1: for every creative document validated by the orchestrator, the
report's `total_rules` equals the number of rules evaluated, `passed_rules`
counts the evaluated rules whose result passed, the total splits into passed
plus errors plus warnings, and `compliance_score` equals
`round(100 * passed_rules / total_rules)` with score 0 when no rule was
evaluated. -/
theorem c1_report_aggregation (o : ContrastOracle) (d : CreativeDocument) :
    (validateCreative o d).total_rules = (evaluatedResults o d).length ∧
    (validateCreative o d).passed_rules
      = ((evaluatedResults o d).filter (fun r => r.passed)).length ∧
    (validateCreative o d).total_rules
      = (validateCreative o d).passed_rules + (validateCreative o d).errors.length
          + (validateCreative o d).warnings.length ∧
    (validateCreative o d).compliance_score
      = (if (validateCreative o d).total_rules = 0 then 0
         else natRound (100 * (validateCreative o d).passed_rules)
                (validateCreative o d).total_rules) := by
  refine ⟨rfl, rfl, ?_, rfl⟩
  simpa [validateCreative, aggregate] using length_partition (evaluatedResults o d)

/-- Witness for C1: the aggregation identities at Scenario B. -/
theorem c1_report_aggregation_witness :
    (validateCreative trivialContrast scenarioB).total_rules
      = (evaluatedResults trivialContrast scenarioB).length ∧
    (validateCreative trivialContrast scenarioB).passed_rules
      = ((evaluatedResults trivialContrast scenarioB).filter (fun r => r.passed)).length ∧
    (validateCreative trivialContrast scenarioB).total_rules
      = (validateCreative trivialContrast scenarioB).passed_rules
          + (validateCreative trivialContrast scenarioB).errors.length
          + (validateCreative trivialContrast scenarioB).warnings.length ∧
    (validateCreative trivialContrast scenarioB).compliance_score
      = (if (validateCreative trivialContrast scenarioB).total_rules = 0 then 0
         else natRound (100 * (validateCreative trivialContrast scenarioB).passed_rules)
                (validateCreative trivialContrast scenarioB).total_rules) :=
  c1_report_aggregation trivialContrast scenarioB

/-- Claim C2: a report is compliant exactly when its errors list is empty, and
a batch whose failing results are all warnings is always compliant — warnings
never affect `is_compliant`. -/
theorem c2_compliant_iff_no_errors (o : ContrastOracle) (d : CreativeDocument) :
    ((validateCreative o d).is_compliant = true ↔ (validateCreative o d).errors = []) ∧
    (∀ rs : List RuleResult,
      (rs.all fun r => r.passed || r.severity == Severity.warning) = true →
        (aggregate rs).is_compliant = true) := by
  constructor
  · simp [validateCreative, aggregate, List.isEmpty_iff]
  · intro rs h
    simp only [aggregate, List.isEmpty_iff]
    rw [List.filter_eq_nil_iff]
    intro r hr
    have := (List.all_eq_true.mp h) r hr
    rcases Bool.or_eq_true _ _ |>.mp this with hp | hw
    · simp [hp]
    · rcases r with ⟨i, n, c, sev, p, m⟩
      simp only [beq_iff_eq] at hw
      subst hw
      simp

/-- Witness for C2: Scenario A validates as compliant, and an empty batch is
compliant. -/
theorem c2_compliant_iff_no_errors_witness :
    (validateCreative trivialContrast scenarioA).is_compliant = true ∧
    (aggregate []).is_compliant = true :=
  ⟨(c2_compliant_iff_no_errors trivialContrast scenarioA).1.mpr (by rfl),
   (c2_compliant_iff_no_errors trivialContrast scenarioA).2 [] rfl⟩

/-- Claim C3: every validation evaluates rules 1–11, 13–14 and 17; rules 12 and
18 are evaluated exactly when the format is 9:16, rule 15 exactly when
`has_people_in_images`, rule 16 exactly when `is_alcohol_campaign`; a skipped
rule is absent from the report and `total_rules` counts only evaluated rules. -/
theorem c3_applicable_rule_set (o : ContrastOracle) (d : CreativeDocument) :
    (([1, 2, 3, 4, 5, 6, 7, 8, 9, 10, 11, 13, 14, 17] : List Nat).all
        (fun i => (reportRuleIds o d).contains i)) = true ∧
    (12 ∈ reportRuleIds o d ↔ d.format = "9:16") ∧
    (18 ∈ reportRuleIds o d ↔ d.format = "9:16") ∧
    (15 ∈ reportRuleIds o d ↔ d.has_people_in_images = true) ∧
    (16 ∈ reportRuleIds o d ↔ d.is_alcohol_campaign = true) ∧
    (validateCreative o d).total_rules = (reportRuleIds o d).length := by
  have htot : (validateCreative o d).total_rules = (reportRuleIds o d).length := by
    simp [validateCreative, aggregate, reportRuleIds, List.length_map]
  refine ⟨?_, ?_, ?_, ?_, ?_, htot⟩ <;> rw [reportRuleIds_eq o d, applicableRules_ids o d] <;>
    by_cases hf : d.format = "9:16" <;> by_cases hp : d.has_people_in_images = true <;>
      by_cases ha : d.is_alcohol_campaign = true <;>
        simp_all

/-- Witness for C3: the rule set evaluated for Scenario A. -/
theorem c3_applicable_rule_set_witness :
    (([1, 2, 3, 4, 5, 6, 7, 8, 9, 10, 11, 13, 14, 17] : List Nat).all
        (fun i => (reportRuleIds trivialContrast scenarioA).contains i)) = true ∧
    (12 ∈ reportRuleIds trivialContrast scenarioA ↔ scenarioA.format = "9:16") ∧
    (18 ∈ reportRuleIds trivialContrast scenarioA ↔ scenarioA.format = "9:16") ∧
    (15 ∈ reportRuleIds trivialContrast scenarioA
      ↔ scenarioA.has_people_in_images = true) ∧
    (16 ∈ reportRuleIds trivialContrast scenarioA
      ↔ scenarioA.is_alcohol_campaign = true) ∧
    (validateCreative trivialContrast scenarioA).total_rules
      = (reportRuleIds trivialContrast scenarioA).length :=
  c3_applicable_rule_set trivialContrast scenarioA

/-- Claim C4: contrary to the export gating contract, the export handlers issue
the export API calls even when the current compliance report has
`is_compliant = false` — the Scenario B report is non-compliant, yet
`handleExport` and `handleExportAll` perform the export, the UI only renders a
non-blocking advisory, and the calls issued are independent of the compliance
result altogether. -/
theorem c4_export_not_blocked :
    (validateCreative trivialContrast scenarioB).is_compliant = false ∧
    handleExportCalls (some (validateCreative trivialContrast scenarioB)) "1:1"
      = [ApiCall.exportSingle "1:1" "JPEG" "tesco-creative-1-1"] ∧
    handleExportAllCalls (some (validateCreative trivialContrast scenarioB)) false
        "tesco-creative-1"
      = [ApiCall.exportMulti "tesco-creative-1"] ∧
    exportAdvisoryShown (some (validateCreative trivialContrast scenarioB)) = true ∧
    (∀ (cr cr' : Option ComplianceReport) (formatType : String),
      handleExportCalls cr formatType = handleExportCalls cr' formatType) ∧
    (∀ (cr cr' : Option ComplianceReport) (isExporting : Bool) (filename : String),
      handleExportAllCalls cr isExporting filename
        = handleExportAllCalls cr' isExporting filename) :=
  ⟨by rfl, by rfl, by rfl, by rfl, fun _ _ _ => rfl, fun _ _ _ _ => rfl⟩

/-- Claim C5: the empty 1:1 document evaluates exactly rules 1–11, 13–14 and
17, all pass vacuously, and the report is total 14, score 100, compliant. -/
theorem c5_scenario_a_vacuous (o : ContrastOracle) :
    validateCreative o scenarioA =
      { total_rules := 14, passed_rules := 14, errors := [], warnings := [],
        compliance_score := 100, is_compliant := true } ∧
    reportRuleIds o scenarioA = [1, 2, 3, 4, 5, 6, 7, 8, 9, 10, 11, 13, 14, 17] ∧
    ((evaluatedResults o scenarioA).all fun r => r.passed) = true := by
  refine ⟨?_, rfl, rfl⟩
  have h1 : (evaluatedResults o scenarioA).length = 14 := rfl
  have h2 : ((evaluatedResults o scenarioA).filter (fun r => r.passed)).length = 14 := rfl
  have h3 : (evaluatedResults o scenarioA).filter
      (fun r => !r.passed && r.severity == Severity.error) = [] := rfl
  have h4 : (evaluatedResults o scenarioA).filter
      (fun r => !r.passed && r.severity == Severity.warning) = [] := rfl
  simp [validateCreative, aggregate, h1, h2, h3, h4, natRound]

/-- Witness for C5: the Scenario A report at a concrete contrast oracle. -/
theorem c5_scenario_a_vacuous_witness :
    validateCreative trivialContrast scenarioA =
      { total_rules := 14, passed_rules := 14, errors := [], warnings := [],
        compliance_score := 100, is_compliant := true } ∧
    reportRuleIds trivialContrast scenarioA
      = [1, 2, 3, 4, 5, 6, 7, 8, 9, 10, 11, 13, 14, 17] ∧
    ((evaluatedResults trivialContrast scenarioA).all fun r => r.passed) = true :=
  c5_scenario_a_vacuous trivialContrast

/-- Claim C6: the orchestrator produces one result per applicable rule, every
applicable rule's result is included in the batch, and a rule whose evaluation
raises an internal fault yields the failing generic error result instead of
aborting — one rule's fault never suppresses the other results. -/
theorem c6_fault_isolation (rules : List Rule) (d : CreativeDocument) (r : Rule) :
    (runRules (rules.filter (fun q => q.applicable d)) d).length
      = (rules.filter (fun q => q.applicable d)).length ∧
    (r ∈ rules.filter (fun q => q.applicable d) →
      evalRule r d ∈ runRules (rules.filter (fun q => q.applicable d)) d) ∧
    (∀ msg, r.run d = Except.error msg → evalRule r d = genericFaultResult r) := by
  refine ⟨List.length_map _ _, fun hmem => List.mem_map_of_mem _ hmem, fun msg hrun => ?_⟩
  simp [evalRule, hrun, genericFaultResult]

/-- Witness for C6: a registry containing a faulting rule and rule 1 still
evaluates both; the faulting rule is recorded as the generic failing error. -/
theorem c6_fault_isolation_witness :
    evalRule faultyDemoRule scenarioA = genericFaultResult faultyDemoRule ∧
    (runRules ([faultyDemoRule, rule1].filter (fun q => q.applicable scenarioA))
        scenarioA).length = 2 ∧
    evalRule rule1 scenarioA
      ∈ runRules ([faultyDemoRule, rule1].filter (fun q => q.applicable scenarioA))
          scenarioA := by
  have h := c6_fault_isolation [faultyDemoRule, rule1] scenarioA faultyDemoRule
  have h2 := c6_fault_isolation [faultyDemoRule, rule1] scenarioA rule1
  refine ⟨h.2.2 "fault" rfl, ?_, h2.2.1 ?_⟩
  · rw [h.1]
    rfl
  · show rule1 ∈ [faultyDemoRule, rule1]
    exact List.mem_cons_of_mem _ (List.mem_cons_self _ _)

/-- Claim C7: the engine is deterministic — validating the same document twice
yields two identical reports, and the result is a pure function of the input
document (no state is threaded between the calls of a validation sequence). -/
theorem c7_deterministic (o : ContrastOracle) (d : CreativeDocument) :
    validateSequence o [d, d] = [validateCreative o d, validateCreative o d] ∧
    (validateSequence o [d, d]).head? = (validateSequence o [d, d]).getLast? := by
  refine ⟨rfl, ?_⟩
  simp [validateSequence]

/-- Witness for C7: two validations of Scenario B yield the same report. -/
theorem c7_deterministic_witness :
    validateSequence trivialContrast [scenarioB, scenarioB]
      = [validateCreative trivialContrast scenarioB,
         validateCreative trivialContrast scenarioB] ∧
    (validateSequence trivialContrast [scenarioB, scenarioB]).head?
      = (validateSequence trivialContrast [scenarioB, scenarioB]).getLast? :=
  c7_deterministic trivialContrast scenarioB

/-- Claim C8: a tag text passes rule 8 iff it equals an approved string or is
the Clubcard template with day 01–31 and month 01–12; `Ends 45/82` fails while
the calendar-invalid `Ends 31/02` passes (range check only); the tag-creation
UI accepts `45/82` since it checks only the two-digits/two-digits shape, and
for a Clubcard tag text it builds exactly the template carrying that date. -/
theorem c8_approved_tags (tx : String) :
    (tagTextOk tx = true ↔
      (tx ∈ approvedTags ∨ ∃ d1 d2 m1 m2 : Char,
        tx.data = tmplLead ++ [d1, d2, '/', m1, m2] ∧
        d1.isDigit = true ∧ d2.isDigit = true ∧ m1.isDigit = true ∧ m2.isDigit = true ∧
        1 ≤ digitVal d1 * 10 + digitVal d2 ∧ digitVal d1 * 10 + digitVal d2 ≤ 31 ∧
        1 ≤ digitVal m1 * 10 + digitVal m2 ∧ digitVal m1 * 10 + digitVal m2 ≤ 12)) ∧
    tagTextOk "Available in selected stores. Clubcard/app required. Ends 45/82" = false ∧
    tagTextOk "Available in selected stores. Clubcard/app required. Ends 31/02" = true ∧
    endDateShapeOk "45/82" = true ∧
    addTagFinalText "Clubcard tag" "45/82"
      = some "Available in selected stores. Clubcard/app required. Ends 45/82" := by
  refine ⟨?_, by rfl, by rfl, by rfl, by rfl⟩
  unfold tagTextOk
  rw [Bool.or_eq_true, contains_approved, clubcardTemplateOk_iff]

/-- Witness for C8: the approved string `Only at Tesco` passes rule 8. -/
theorem c8_approved_tags_witness :
    tagTextOk "Only at Tesco" = true :=
  (c8_approved_tags "Only at Tesco").1.mpr (Or.inl (by simp [approvedTags]))

/-- Claim C9: contrary to the §3 input contract, an element serialized from a
live canvas object by `getCreativeData` never carries position fields named
`x` and `y` — it carries `left` and `top` instead, for every object; the
concrete i-text object at left 100, top 200 serializes to exactly the listed
keys, none of which is `x` or `y`. -/
theorem c9_no_xy_fields :
    (∀ obj : FabricObject,
      "x" ∉ (serializeObject obj).map Prod.fst ∧
      "y" ∉ (serializeObject obj).map Prod.fst ∧
      "left" ∈ (serializeObject obj).map Prod.fst ∧
      "top" ∈ (serializeObject obj).map Prod.fst) ∧
    (serializeObject demoITextObject).map Prod.fst
      = ["type", "left", "top", "width", "height", "angle", "opacity", "zIndex",
         "text", "fontSize", "fontFamily", "fill"] := by
  refine ⟨fun obj => ?_, by rfl⟩
  unfold serializeObject
  split_ifs <;> simp [setKV]

/-- Claim C10: every value-tile element created by `addValueTileToCanvas` has
`price` non-null exactly for the white and clubcard types and `regular_price`
non-null exactly for clubcard, so rule 9's field-presence preconditions hold by
construction for every invocation. -/
theorem c10_value_tile_fields (format : String) (t : TileType) (p rp : String) :
    ((addValueTileToCanvas format t p rp).price ≠ none
        ↔ (t = TileType.white ∨ t = TileType.clubcard)) ∧
    ((addValueTileToCanvas format t p rp).regular_price ≠ none ↔ t = TileType.clubcard) ∧
    tileFieldsOk t (addValueTileToCanvas format t p rp).price
      (addValueTileToCanvas format t p rp).regular_price = true := by
  cases t <;> simp [addValueTileToCanvas, tileFieldsOk]

/-- Witness for C10: the clubcard tile with both price inputs. -/
theorem c10_value_tile_fields_witness :
    ((addValueTileToCanvas "1:1" TileType.clubcard "£2.50" "£3.00").price ≠ none
        ↔ (TileType.clubcard = TileType.white ∨ TileType.clubcard = TileType.clubcard)) ∧
    ((addValueTileToCanvas "1:1" TileType.clubcard "£2.50" "£3.00").regular_price ≠ none
        ↔ TileType.clubcard = TileType.clubcard) ∧
    tileFieldsOk TileType.clubcard
      (addValueTileToCanvas "1:1" TileType.clubcard "£2.50" "£3.00").price
      (addValueTileToCanvas "1:1" TileType.clubcard "£2.50" "£3.00").regular_price = true :=
  c10_value_tile_fields "1:1" TileType.clubcard "£2.50" "£3.00"
